import Mathlib

/-!
Verification of the WeatherWise decision core (logic.js and the forecast
window extraction of app.js) against its specification.

Modelling conventions of the shallow embedding:
* JavaScript numbers appearing in the payload are rationals (`ℚ`); an
  absent field (`undefined` / `null`) is `Option.none`.  `Number(undefined)`
  is `NaN`, and every JS comparison with `NaN` is false, so a comparison
  `Number(x) <= c` on an optional value is modelled by `numLe`, which is
  false on `none`.
* `a ?? b` is `Option.getD`, and the truthiness coalescing `a || b`
  on strings (which also replaces the empty string) is `jsOrString`.
* `Math.round` rounds half away from zero towards +∞ on the non-negative
  values arising here, i.e. `⌊q + 1/2⌋`.
-/

namespace WeatherWise

/-- The six normalized weather categories of logic.js. -/
inductive Cond where
  | clear
  | clouds
  | rain
  | snow
  | thunderstorm
  | other
deriving DecidableEq

/-- `l₁` is a prefix of `l₂`, as a boolean on character lists. -/
def charsPrefixOf : List Char → List Char → Bool
  | [], _ => true
  | _ :: _, [] => false
  | a :: as, b :: bs => a == b && charsPrefixOf as bs

/-- `pat` occurs as a contiguous sublist of the second argument. -/
def charsIncludes (pat : List Char) : List Char → Bool
  | [] => charsPrefixOf pat []
  | b :: bs => charsPrefixOf pat (b :: bs) || charsIncludes pat bs

/-- JavaScript `s.includes(pat)` on strings. -/
def jsIncludes (s pat : String) : Bool :=
  charsIncludes pat.toList s.toList

/-- JS `s.toLowerCase()`, as ASCII case folding over the character list
(this covers every keyword of `normalizeCondition` and every label the
weather API emits there). -/
def lowerString (s : String) : String :=
  String.mk (s.toList.map Char.toLower)

/-- JavaScript `v || dflt` for an optional string: `undefined` and the
empty string (both falsy) are replaced by the default. -/
def jsOrString (v : Option String) (dflt : String) : String :=
  match v with
  | none => dflt
  | some s => if s = "" then dflt else s

/-- logic.js `normalizeCondition(weatherMain)`: case-insensitive substring
matching in fixed priority order over `(weatherMain || "").toLowerCase()`. -/
def normalizeCondition (weatherMain : Option String) : Cond :=
  let m := lowerString (jsOrString weatherMain "")
  if jsIncludes m "thunder" then Cond.thunderstorm
  else if jsIncludes m "drizzle" || jsIncludes m "rain" then Cond.rain
  else if jsIncludes m "snow" then Cond.snow
  else if jsIncludes m "cloud" then Cond.clouds
  else if jsIncludes m "clear" then Cond.clear
  else Cond.other

/-- The raw OpenWeatherMap payload, flattened: each field stands for one
optional-chained access path of `buildWeatherContext` (a missing level of
the JS object makes the whole path `undefined`, i.e. `none`). -/
structure RawPayload where
  weatherMain : Option String
  weatherDescription : Option String
  mainTemp : Option ℚ
  mainFeelsLike : Option ℚ
  windSpeed : Option ℚ
  cloudsAll : Option ℚ
  visibility : Option ℚ
  rain1h : Option ℚ
  snow1h : Option ℚ

/-- The weather context produced by logic.js `buildWeatherContext`. -/
structure WeatherContext where
  condition : Cond
  rawConditionMain : String
  description : String
  temp : Option ℚ
  feelsLike : Option ℚ
  windSpeed : Option ℚ
  cloudPct : Option ℚ
  visibilityM : Option ℚ
  rainMm1h : Option ℚ
  snowMm1h : Option ℚ
deriving DecidableEq

/-- logic.js `buildWeatherContext(api)`.  `temp`, `feelsLike` and
`windSpeed` are copied as they are (possibly `undefined`); the four
optional fields use `?? null`, which keeps a present value and turns an
absent one into the absent marker. -/
def buildWeatherContext (api : RawPayload) : WeatherContext where
  condition := normalizeCondition api.weatherMain
  rawConditionMain := jsOrString api.weatherMain "Unknown"
  description := jsOrString api.weatherDescription ""
  temp := api.mainTemp
  feelsLike := api.mainFeelsLike
  windSpeed := api.windSpeed
  cloudPct := api.cloudsAll
  visibilityM := api.visibility
  rainMm1h := api.rain1h
  snowMm1h := api.snow1h

/-- JS `Number(x) <= c` where `x` is an optional number: false when `x`
is absent (`Number(undefined)` is `NaN`, and `NaN <= c` is false). -/
def numLe (x : Option ℚ) (c : ℚ) : Bool :=
  match x with
  | none => false
  | some v => decide (v ≤ c)

/-- JS `Number(x) >= c` where `x` is an optional number: false when `x`
is absent. -/
def numGe (x : Option ℚ) (c : ℚ) : Bool :=
  match x with
  | none => false
  | some v => decide (c ≤ v)

/-- The result record of logic.js `getRecommendation`. -/
structure RecommendationResult where
  summary : String
  recommendation : String
  insightPool : List String
deriving DecidableEq

/-- logic.js `getRecommendation(ctx)`: the priority-ordered decision table.
`t` and `w` are `Number(ctx.temp)` / `Number(ctx.windSpeed)`; each early
`return` of the source is one arm of the `if … else` chain. -/
def getRecommendation (ctx : WeatherContext) : RecommendationResult :=
  let t := ctx.temp
  let w := ctx.windSpeed
  -- 1) Gewitter
  if ctx.condition = Cond.thunderstorm then
    { summary := "⚡ Gewitter möglich"
      recommendation := "Drinnen bleiben und offene Flächen meiden. Sicherheit geht vor!"
      insightPool :=
        [ "Heute gewinnt definitiv der Plan B."
        , "Laptop statt Laufrunde – kein schlechter Deal."
        , "Bei Blitz und Donner lieber nicht experimentieren." ] }
  -- 2) Schnee
  else if ctx.condition = Cond.snow then
    if numLe t 0 then
      { summary := "❄️ Kalt & verschneit"
        recommendation := "Warme Winterstiefel, Mütze und Schal sind Pflicht. Vorsicht bei Glätte!"
        insightPool :=
          [ "Heute ist definitiv Wintermodus angesagt."
          , "Rutschfest schlägt stylish – jeden Tag."
          , "Langsam gehen ist das neue schnell." ] }
    else
      { summary := "🌨️ Schnee / Schneeregen"
        recommendation := "Wasserfeste Jacke und mehrere warme Schichten einplanen."
        insightPool :=
          [ "Schichten sind heute dein Superpower."
          , "Handschuhe zahlen sich immer aus."
          , "Draußen sieht's besser aus als es sich anfühlt." ] }
  -- 3) Regen
  else if ctx.condition = Cond.rain then
    if numLe t 6 then
      { summary := "🌧️ Kühl & regnerisch"
        recommendation := "Regenjacke plus warme Schicht (Hoodie oder Pullover) empfohlen."
        insightPool :=
          [ "Heute ist kein Hoodie-Tag. Heute ist Hoodie-PLUS-Regenjacke."
          , "Schirme sind nett – Jacken sind sicherer."
          , "Pfützen-Management: aktiviert." ] }
    else if numGe t 22 then
      { summary := "🌦️ Warm & regnerisch"
        recommendation := "Leichte Regenjacke reicht. Ein Wechselshirt kann aber helfen."
        insightPool :=
          [ "Regen ist heute eher ein Stimmungstest."
          , "Kurz nass ist auch nass – leider."
          , "Ein trockener Rücken ist Gold wert." ] }
    else
      { summary := "🌧️ Regnerisch"
        recommendation := "Regenjacke oder Schirm nicht vergessen!"
        insightPool :=
          [ "Heute lieber wasserfest denken."
          , "Ein Schirm ist ein guter Sidekick."
          , "Draußen ist's ein bisschen „filmisch“." ] }
  -- 4) Wind
  else if numGe w 10 then
    if numLe t 10 then
      { summary := "💨 Windig & kühl"
        recommendation := "Winddichte Jacke und warme Kleidung sind heute sinnvoll."
        insightPool :=
          [ "Heute gewinnt die winddichte Schicht."
          , "Mütze: total underrated."
          , "Der Wind macht aus kühl ganz schnell kalt." ] }
    else
      { summary := "🌬️ Windig"
        recommendation := "Eine leichte, aber winddichte Schicht lohnt sich heute."
        insightPool :=
          [ "Frisur heute: optional."
          , "Wind ist das neue Cardio."
          , "Kleine Extraschicht, großer Effekt." ] }
  -- 5) Klar / Sonnig
  else if ctx.condition = Cond.clear then
    if numGe t 28 then
      { summary := "☀️ Heiß & sonnig"
        recommendation := "Viel trinken, Mittagssonne meiden, Sonnencreme verwenden!"
        insightPool :=
          [ "Heute ist Schatten pure Strategie."
          , "Wasser first – immer."
          , "Die Sonne ist heute definitiv der Chef." ] }
    else if numLe t 5 then
      { summary := "☀️ Klar, aber kalt"
        recommendation := "Warme Jacke einpacken. Die Sonne täuscht!"
        insightPool :=
          [ "Sonne bedeutet nicht automatisch warm."
          , "Klarer Himmel, klare Jackenwahl."
          , "Heute zählt die Basisschicht." ] }
    else
      { summary := "🌤️ Freundlich & trocken"
        recommendation := "Perfekte Bedingungen! Leichte Jacke nach Gefühl."
        insightPool :=
          [ "Perfektes Wetter für einen Spaziergang."
          , "Heute lohnt sich frische Luft besonders."
          , "Kurz raus – macht den Kopf frei." ] }
  -- 6) Bewölkt
  else if ctx.condition = Cond.clouds then
    if numLe t 8 then
      { summary := "☁️ Kühl & bewölkt"
        recommendation := "Warme Schicht einplanen, besonders morgens und abends."
        insightPool :=
          [ "Wolken können kalt aussehen – und kalt sein."
          , "Heute passt ein Hoodie ziemlich gut."
          , "Komfort schlägt Outfit-Drama." ] }
    else
      { summary := "⛅ Bewölkt"
        recommendation := "Unkompliziert: normale Alltagskleidung, optional leichte Jacke."
        insightPool :=
          [ "Heute ist ein solider Tag."
          , "Wetter: unaufgeregt. Du auch."
          , "Einfach machen." ] }
  -- 7) Fallback
  else
    { summary := "🌫️ Wechselhaft"
      recommendation := "Praktisch bleiben: Schichten tragen und flexibel planen."
      insightPool :=
        [ "Heute ist Flexibilität eine echte Tugend."
        , "Plan mit Puffer ist ein guter Plan."
        , "Schichten sind dein bester Freund." ] }

/-- logic.js `pickDailyInsight(insightPool)`; the random draw
`Math.random()` is injected as the rational `r ∈ [0, 1)`, and the chosen
index is `Math.floor(r * insightPool.length)`. -/
def pickDailyInsight (insightPool : List String) (r : ℚ) : String :=
  if insightPool.length = 0 then ""
  else
    let randomIndex := (⌊r * insightPool.length⌋ : ℤ).toNat
    insightPool.getD randomIndex ""

/-- logic.js `clamp(n, min, max) = Math.max(min, Math.min(max, n))`. -/
def clamp (n mn mx : ℚ) : ℚ :=
  max mn (min mx n)

/-- `clamp` applied to the already-rounded integer score. -/
def clampInt (n mn mx : ℤ) : ℤ :=
  max mn (min mx n)

/-- JavaScript `Math.round`: round half towards +∞. -/
def jsRound (q : ℚ) : ℤ :=
  ⌊q + 1 / 2⌋

/-- logic.js `getImpactScore(ctx)`: six independently clamped additive
contributions, then `clamp(Math.round(score), 0, 100)`.  The `Number.isNaN`
guards of the source make the wind/heat/cold terms vanish exactly when the
optional field is absent. -/
def getImpactScore (ctx : WeatherContext) : ℤ :=
  let rain := ctx.rainMm1h.getD 0
  let snow := ctx.snowMm1h.getD 0
  let rainTerm : ℚ := if 0 < rain then clamp (rain * 12) 10 45 else 0
  let snowTerm : ℚ := if 0 < snow then clamp (snow * 10) 10 40 else 0
  let windTerm : ℚ :=
    match ctx.windSpeed with
    | some w => if 6 < w then clamp ((w - 6) * 4) 0 25 else 0
    | none => 0
  let heatTerm : ℚ :=
    match ctx.temp with
    | some t => if 28 ≤ t then clamp ((t - 27) * 4) 4 25 else 0
    | none => 0
  let coldTerm : ℚ :=
    match ctx.temp with
    | some t => if t ≤ 2 then clamp ((3 - t) * 5) 5 30 else 0
    | none => 0
  let visTerm : ℚ :=
    match ctx.visibilityM with
    | some vis => if 0 < vis ∧ vis < 2000 then clamp ((2000 - vis) / 80) 5 25 else 0
    | none => 0
  let score := rainTerm + snowTerm + windTerm + heatTerm + coldTerm + visTerm
  clampInt (jsRound score) 0 100

/-- Badge severity tones. -/
inductive Tone where
  | neutral
  | warn
  | danger
deriving DecidableEq

/-- One badge of logic.js `getBadges`. -/
structure Badge where
  text : String
  tone : Tone
deriving DecidableEq

/-- logic.js `getBadges(ctx)`: the seven order-fixed rules, each appending
at most one badge. -/
def getBadges (ctx : WeatherContext) : List Badge :=
  let rain := ctx.rainMm1h.getD 0
  let snow := ctx.snowMm1h.getD 0
  let rainBadge : List Badge :=
    if 2 ≤ rain then [⟨"Starker Regen", Tone.danger⟩]
    else if 0 < rain then [⟨"Nass", Tone.warn⟩]
    else []
  let snowBadge : List Badge :=
    if 0 < snow ∧ numLe ctx.temp 1 then [⟨"Glattegefahr", Tone.danger⟩]
    else if 0 < snow then [⟨"Schnee", Tone.warn⟩]
    else []
  let visBadge : List Badge :=
    match ctx.visibilityM with
    | some vis => if vis < 1000 then [⟨"Sicht schlecht", Tone.warn⟩] else []
    | none => []
  let windBadge : List Badge :=
    if numGe ctx.windSpeed 10 then [⟨"Sehr windig", Tone.warn⟩] else []
  let heatBadge : List Badge :=
    if numGe ctx.temp 30 then [⟨"Hitze", Tone.warn⟩] else []
  let frostBadge : List Badge :=
    if numLe ctx.temp 0 then [⟨"Frost", Tone.warn⟩] else []
  let cloudBadge : List Badge :=
    match ctx.cloudPct with
    | some c => if 85 ≤ c then [⟨"Sehr bewölkt", Tone.neutral⟩] else []
    | none => []
  rainBadge ++ snowBadge ++ visBadge ++ windBadge ++ heatBadge ++ frostBadge ++ cloudBadge

/-- app.js `meteoCodeToTag(code)`.  The argument is optional to model a
call with `code[i]` out of range (`undefined`), for which every strict
equality test of the source is false and the fallback applies. -/
def meteoCodeToTag (code : Option ℤ) : String :=
  match code with
  | some c =>
    if c = 0 then "Klar"
    else if c = 1 ∨ c = 2 ∨ c = 3 then "Wolkig"
    else if c = 45 ∨ c = 48 then "Nebel"
    else if c = 51 ∨ c = 53 ∨ c = 55 ∨ c = 56 ∨ c = 57 then "Niesel"
    else if c = 61 ∨ c = 63 ∨ c = 65 ∨ c = 66 ∨ c = 67 then "Regen"
    else if c = 71 ∨ c = 73 ∨ c = 75 ∨ c = 77 then "Schnee"
    else if c = 80 ∨ c = 81 ∨ c = 82 then "Schauer"
    else if c = 95 ∨ c = 96 ∨ c = 99 then "Gewitter"
    else "Wechselhaft"
  | none => "Wechselhaft"

/-- The parallel hourly arrays of the Open-Meteo forecast payload read by
`renderHourlyUntilEndOfDay`; timestamps are instants on an integer
time axis (milliseconds since the epoch). -/
structure HourlyFx where
  time : List ℤ
  temperature_2m : List ℚ
  precipitation_probability : List ℚ
  wind_speed_10m : List ℚ
  weather_code : List ℤ

/-- One element pushed onto `items` by `renderHourlyUntilEndOfDay`.  The
metric fields are optional because the source reads the parallel arrays by
index, which yields `undefined` past their end. -/
structure HourlyItem where
  time : ℤ
  temp : Option ℚ
  pop : Option ℚ
  wind : Option ℚ
  tag : String
deriving DecidableEq

/-- The loop body of app.js `renderHourlyUntilEndOfDay`, started at index
`i`: `continue` on a timestamp before `now`, `break` on one past
`endOfDay`, otherwise push the zipped, tag-annotated item. -/
def hourlyItemsFrom (fx : HourlyFx) (now endOfDay : ℤ) (i : ℕ) : List HourlyItem :=
  if h : i < fx.time.length then
    let t := fx.time.get ⟨i, h⟩
    if t < now then hourlyItemsFrom fx now endOfDay (i + 1)
    else if endOfDay < t then []
    else
      { time := t
        temp := fx.temperature_2m.get? i
        pop := fx.precipitation_probability.get? i
        wind := fx.wind_speed_10m.get? i
        tag := meteoCodeToTag (fx.weather_code.get? i) } :: hourlyItemsFrom fx now endOfDay (i + 1)
  else []
termination_by fx.time.length - i

/-- The `items` list built by app.js `renderHourlyUntilEndOfDay` (the pure
part of the function; the DOM rendering of the list is outside the core). -/
def hourlyUntilEndOfDay (fx : HourlyFx) (now endOfDay : ℤ) : List HourlyItem :=
  hourlyItemsFrom fx now endOfDay 0

/-- The annotated entry of the parallel series at index `i` (for an index
below `fx.time.length` its `time` is the actual timestamp). -/
def hourlyEntry (fx : HourlyFx) (i : ℕ) : HourlyItem where
  time := fx.time.getD i 0
  temp := fx.temperature_2m.get? i
  pop := fx.precipitation_probability.get? i
  wind := fx.wind_speed_10m.get? i
  tag := meteoCodeToTag (fx.weather_code.get? i)

/-- Modelled from the spec (§4.7): the hourly window is every entry whose
timestamp falls within `[now, endOfDay]` inclusive, in original order,
annotated by the weather-code table. -/
def hourlyWindowSpec (fx : HourlyFx) (now endOfDay : ℤ) : List HourlyItem :=
  ((List.range fx.time.length).filter
      (fun i => decide (now ≤ fx.time.getD i 0) && decide (fx.time.getD i 0 ≤ endOfDay))).map
    (hourlyEntry fx)

/-! ## Test fixtures and helper lemmas -/

/-- A payload in which every optional field is missing. -/
def emptyPayload : RawPayload where
  weatherMain := none
  weatherDescription := none
  mainTemp := none
  mainFeelsLike := none
  windSpeed := none
  cloudsAll := none
  visibility := none
  rain1h := none
  snow1h := none

/-- A context with the given condition, temperature and wind and every
other numeric field absent. -/
def mkCtx (c : Cond) (t w : Option ℚ) : WeatherContext where
  condition := c
  rawConditionMain := ""
  description := ""
  temp := t
  feelsLike := none
  windSpeed := w
  cloudPct := none
  visibilityM := none
  rainMm1h := none
  snowMm1h := none

theorem numLe_none (c : ℚ) : numLe none c = false := rfl

theorem numGe_none (c : ℚ) : numGe none c = false := rfl

theorem lowerString_jsOrString (s : String) :
    lowerString (jsOrString (some s) "") = lowerString s := by
  by_cases hs : s = "" <;> simp [jsOrString, hs]

/-! ## The claims -/

/-- C8: normalizeCondition is total and equals the first-match priority
table — thunder text wins, then drizzle/rain, then snow, then cloud, then
clear; anything else (absence, the empty string, an unrecognized label
such as "Haze") maps to other. -/
theorem normalizeCondition_priority_total :
    (∀ s : String, jsIncludes (lowerString s) "thunder" = true →
        normalizeCondition (some s) = Cond.thunderstorm)
  ∧ (∀ s : String, jsIncludes (lowerString s) "thunder" = false →
        (jsIncludes (lowerString s) "drizzle" || jsIncludes (lowerString s) "rain") = true →
        normalizeCondition (some s) = Cond.rain)
  ∧ (∀ s : String, jsIncludes (lowerString s) "thunder" = false →
        jsIncludes (lowerString s) "drizzle" = false → jsIncludes (lowerString s) "rain" = false →
        jsIncludes (lowerString s) "snow" = true →
        normalizeCondition (some s) = Cond.snow)
  ∧ (∀ s : String, jsIncludes (lowerString s) "thunder" = false →
        jsIncludes (lowerString s) "drizzle" = false → jsIncludes (lowerString s) "rain" = false →
        jsIncludes (lowerString s) "snow" = false →
        jsIncludes (lowerString s) "cloud" = true →
        normalizeCondition (some s) = Cond.clouds)
  ∧ (∀ s : String, jsIncludes (lowerString s) "thunder" = false →
        jsIncludes (lowerString s) "drizzle" = false → jsIncludes (lowerString s) "rain" = false →
        jsIncludes (lowerString s) "snow" = false →
        jsIncludes (lowerString s) "cloud" = false →
        jsIncludes (lowerString s) "clear" = true →
        normalizeCondition (some s) = Cond.clear)
  ∧ (∀ s : String, jsIncludes (lowerString s) "thunder" = false →
        jsIncludes (lowerString s) "drizzle" = false → jsIncludes (lowerString s) "rain" = false →
        jsIncludes (lowerString s) "snow" = false →
        jsIncludes (lowerString s) "cloud" = false →
        jsIncludes (lowerString s) "clear" = false →
        normalizeCondition (some s) = Cond.other)
  ∧ normalizeCondition none = Cond.other
  ∧ normalizeCondition (some "") = Cond.other
  ∧ normalizeCondition (some "Haze") = Cond.other := by
  refine ⟨?_, ?_, ?_, ?_, ?_, ?_, by decide, by decide, by decide⟩ <;>
    intro s <;> intros <;>
    simp [normalizeCondition, lowerString_jsOrString, *]

/-- C8 witness: concrete labels hitting the thunder and rain rules, via the
priority theorem. -/
theorem normalizeCondition_priority_total_witness :
    normalizeCondition (some "Thunderstorm") = Cond.thunderstorm
    ∧ normalizeCondition (some "light Drizzle") = Cond.rain :=
  ⟨normalizeCondition_priority_total.1 "Thunderstorm" (by decide),
   normalizeCondition_priority_total.2.1 "light Drizzle" (by decide) (by decide)⟩

/-- C2: a context whose condition is thunderstorm always takes the
safety-first thunderstorm branch, whatever the other fields — in
particular it is never the wind branch, even at windSpeed ≥ 10. -/
theorem getRecommendation_thunderstorm_priority (ctx : WeatherContext)
    (h : ctx.condition = Cond.thunderstorm) :
    getRecommendation ctx =
      { summary := "⚡ Gewitter möglich"
        recommendation := "Drinnen bleiben und offene Flächen meiden. Sicherheit geht vor!"
        insightPool :=
          [ "Heute gewinnt definitiv der Plan B."
          , "Laptop statt Laufrunde – kein schlechter Deal."
          , "Bei Blitz und Donner lieber nicht experimentieren." ] }
    ∧ (getRecommendation ctx).summary ≠ "💨 Windig & kühl"
    ∧ (getRecommendation ctx).summary ≠ "🌬️ Windig" := by
  refine ⟨by simp [getRecommendation, h], ?_, ?_⟩ <;>
    · simp only [getRecommendation, h, reduceIte]
      decide

/-- C2 witness: a thunderstorm context with windSpeed 12 m/s selects the
thunderstorm branch, not the wind branch. -/
theorem getRecommendation_thunderstorm_priority_witness :
    (getRecommendation (mkCtx Cond.thunderstorm (some 14) (some 12))).summary =
      "⚡ Gewitter möglich"
    ∧ (getRecommendation (mkCtx Cond.thunderstorm (some 14) (some 12))).summary ≠ "🌬️ Windig" := by
  have h := getRecommendation_thunderstorm_priority
    (mkCtx Cond.thunderstorm (some 14) (some 12)) rfl
  exact ⟨by rw [h.1], h.2.2⟩

/-- C5: boundary temperatures resolve via the non-strict comparisons to
the stated branch: snow at exactly 0 °C is the winter-gear branch, rain at
exactly 6 °C the cold-rain branch, clear at exactly 5 °C the
deceptively-cold branch, clouds at exactly 8 °C the cool-cloudy branch,
and (rules 1–3 unmatched) wind exactly 10 m/s with exactly 10 °C the
windy-cold branch. -/
theorem getRecommendation_boundary_temperatures :
    (getRecommendation (mkCtx Cond.snow (some 0) (some 3))).summary = "❄️ Kalt & verschneit"
  ∧ (getRecommendation (mkCtx Cond.rain (some 6) (some 3))).summary = "🌧️ Kühl & regnerisch"
  ∧ (getRecommendation (mkCtx Cond.clear (some 5) (some 3))).summary = "☀️ Klar, aber kalt"
  ∧ (getRecommendation (mkCtx Cond.clouds (some 8) (some 3))).summary = "☁️ Kühl & bewölkt"
  ∧ (getRecommendation (mkCtx Cond.clear (some 10) (some 10))).summary = "💨 Windig & kühl" := by
  decide

/-- The context of the badge example in §8 of the spec. -/
def badgeExampleCtx : WeatherContext where
  condition := Cond.rain
  rawConditionMain := "Rain"
  description := ""
  temp := some (-2)
  feelsLike := none
  windSpeed := some 12
  cloudPct := none
  visibilityM := some 500
  rainMm1h := some 3
  snowMm1h := some 0

/-- C6: the context with rain 3 mm/h, snow 0, visibility 500 m, wind
12 m/s and −2 °C yields exactly four badges in insertion order:
heavy rain (danger), poor visibility (warn), very windy (warn),
frost (warn). -/
theorem getBadges_example_order :
    getBadges badgeExampleCtx =
      [ ⟨"Starker Regen", Tone.danger⟩
      , ⟨"Sicht schlecht", Tone.warn⟩
      , ⟨"Sehr windig", Tone.warn⟩
      , ⟨"Frost", Tone.warn⟩ ] := by
  decide

/-- C1 counterexample: on the payload missing every field the built
context carries the null/absent marker for rainMm1h (and snowMm1h), not
the claimed default 0. -/
theorem buildWeatherContext_absent_rain_is_null :
    (buildWeatherContext emptyPayload).rainMm1h ≠ some 0
    ∧ (buildWeatherContext emptyPayload).rainMm1h = none
    ∧ (buildWeatherContext emptyPayload).snowMm1h = none := by
  decide

/-- C1 (amended): buildWeatherContext is total, and each absent payload
field maps to the absent marker of the corresponding context field —
rainMm1h/snowMm1h included (their default 0 is applied later by the
consumers, not here); the payload missing every field yields the context
with condition = other and every optional field absent. -/
theorem buildWeatherContext_optional_defaults (api : RawPayload) :
    (api.mainTemp = none → (buildWeatherContext api).temp = none)
  ∧ (api.mainFeelsLike = none → (buildWeatherContext api).feelsLike = none)
  ∧ (api.windSpeed = none → (buildWeatherContext api).windSpeed = none)
  ∧ (api.rain1h = none → (buildWeatherContext api).rainMm1h = none)
  ∧ (api.snow1h = none → (buildWeatherContext api).snowMm1h = none)
  ∧ (api.cloudsAll = none → (buildWeatherContext api).cloudPct = none)
  ∧ (api.visibility = none → (buildWeatherContext api).visibilityM = none)
  ∧ buildWeatherContext emptyPayload =
      { condition := Cond.other
        rawConditionMain := "Unknown"
        description := ""
        temp := none
        feelsLike := none
        windSpeed := none
        cloudPct := none
        visibilityM := none
        rainMm1h := none
        snowMm1h := none } := by
  refine ⟨?_, ?_, ?_, ?_, ?_, ?_, ?_, by decide⟩ <;>
    intro h <;> simp [buildWeatherContext, h]

/-- C1 witness: the defaults of the empty payload, via the defaults
theorem. -/
theorem buildWeatherContext_optional_defaults_witness :
    (buildWeatherContext emptyPayload).temp = none
    ∧ (buildWeatherContext emptyPayload).rainMm1h = none :=
  ⟨(buildWeatherContext_optional_defaults emptyPayload).1 rfl,
   (buildWeatherContext_optional_defaults emptyPayload).2.2.2.1 rfl⟩

/-- C9: for a random draw r ∈ [0, 1) the picked insight is a member of a
non-empty pool, and the empty pool yields the empty string. -/
theorem pickDailyInsight_member_or_empty (insightPool : List String) (r : ℚ)
    (h0 : 0 ≤ r) (h1 : r < 1) :
    (insightPool ≠ [] → pickDailyInsight insightPool r ∈ insightPool)
    ∧ pickDailyInsight [] r = "" := by
  constructor
  · intro hne
    have hlen : 0 < insightPool.length := List.length_pos.mpr hne
    have hfloor0 : (0 : ℤ) ≤ ⌊r * insightPool.length⌋ :=
      Int.floor_nonneg.mpr (mul_nonneg h0 (by positivity))
    have hlt : (⌊r * insightPool.length⌋ : ℤ) < insightPool.length := by
      apply Int.floor_lt.mpr
      push_cast
      calc r * insightPool.length < 1 * insightPool.length := by
            apply mul_lt_mul_of_pos_right h1
            exact_mod_cast hlen
        _ = insightPool.length := one_mul _
    have hidx : (⌊r * insightPool.length⌋ : ℤ).toNat < insightPool.length := by
      omega
    unfold pickDailyInsight
    rw [if_neg (by omega)]
    rw [List.getD_eq_getElem?_getD, List.getElem?_eq_getElem hidx]
    exact List.getElem_mem _
  · simp [pickDailyInsight]

/-- C9 witness: with the draw r = 0 the pick from a three-element pool is
a member of the pool. -/
theorem pickDailyInsight_member_or_empty_witness :
    pickDailyInsight ["a", "b", "c"] 0 ∈ ["a", "b", "c"] :=
  (pickDailyInsight_member_or_empty ["a", "b", "c"] 0 (by decide) (by decide)).1
    (by decide)

/-- C10 counterexample: with temperature absent, a clear context with
windSpeed 15 m/s takes the wind branch, not the pleasant branch — the
wind rule is checked before the clear rule. -/
theorem getRecommendation_nan_temp_wind_counterexample :
    (mkCtx Cond.clear none (some 15)).temp = none
    ∧ (getRecommendation (mkCtx Cond.clear none (some 15))).summary ≠ "🌤️ Freundlich & trocken"
    ∧ (getRecommendation (mkCtx Cond.clear none (some 15))).summary = "🌬️ Windig" := by
  decide

/-- C10 (amended): with temperature absent every temperature comparison is
false, so snow takes the sleet/layers branch and rain the standard-rain
branch unconditionally, while clear takes the pleasant branch and clouds
the mild-cloudy branch provided the wind rule (checked first) does not
fire. -/
theorem getRecommendation_nan_temp_final_else (ctx : WeatherContext)
    (h : ctx.temp = none) :
    (ctx.condition = Cond.snow → (getRecommendation ctx).summary = "🌨️ Schnee / Schneeregen")
  ∧ (ctx.condition = Cond.rain → (getRecommendation ctx).summary = "🌧️ Regnerisch")
  ∧ (numGe ctx.windSpeed 10 = false →
      (ctx.condition = Cond.clear → (getRecommendation ctx).summary = "🌤️ Freundlich & trocken")
      ∧ (ctx.condition = Cond.clouds → (getRecommendation ctx).summary = "⛅ Bewölkt")) := by
  refine ⟨?_, ?_, fun hw => ⟨?_, ?_⟩⟩ <;>
    intro hc <;> simp [getRecommendation, h, hc, numLe_none, numGe_none, *]

/-- C10 witness: a snow context with absent temperature takes the
sleet/layers branch. -/
theorem getRecommendation_nan_temp_final_else_witness :
    (getRecommendation (mkCtx Cond.snow none none)).summary = "🌨️ Schnee / Schneeregen" :=
  (getRecommendation_nan_temp_final_else (mkCtx Cond.snow none none) rfl).1 rfl

/-! ## The additive impact-score reference model of spec §4.5 -/

/-- Modelled from the spec: the rain contribution of §4.5. -/
def rainContribution (ctx : WeatherContext) : ℚ :=
  if 0 < ctx.rainMm1h.getD 0 then clamp (ctx.rainMm1h.getD 0 * 12) 10 45 else 0

/-- Modelled from the spec: the snow contribution of §4.5. -/
def snowContribution (ctx : WeatherContext) : ℚ :=
  if 0 < ctx.snowMm1h.getD 0 then clamp (ctx.snowMm1h.getD 0 * 10) 10 40 else 0

/-- Modelled from the spec: the wind contribution of §4.5 (0 when the
wind speed is not a number). -/
def windContribution (ctx : WeatherContext) : ℚ :=
  match ctx.windSpeed with
  | some w => if 6 < w then clamp ((w - 6) * 4) 0 25 else 0
  | none => 0

/-- Modelled from the spec: the heat contribution of §4.5. -/
def heatContribution (ctx : WeatherContext) : ℚ :=
  match ctx.temp with
  | some t => if 28 ≤ t then clamp ((t - 27) * 4) 4 25 else 0
  | none => 0

/-- Modelled from the spec: the cold contribution of §4.5. -/
def coldContribution (ctx : WeatherContext) : ℚ :=
  match ctx.temp with
  | some t => if t ≤ 2 then clamp ((3 - t) * 5) 5 30 else 0
  | none => 0

/-- Modelled from the spec: the visibility contribution of §4.5. -/
def visibilityContribution (ctx : WeatherContext) : ℚ :=
  match ctx.visibilityM with
  | some vis => if 0 < vis ∧ vis < 2000 then clamp ((2000 - vis) / 80) 5 25 else 0
  | none => 0

/-- Modelled from the spec: the additive impact-score model of §4.5 — the
six independently clamped contributions summed, rounded, clamped to
[0, 100]. -/
def impactScoreSpec (ctx : WeatherContext) : ℤ :=
  clampInt
    (jsRound
      (rainContribution ctx + snowContribution ctx + windContribution ctx +
        heatContribution ctx + coldContribution ctx + visibilityContribution ctx))
    0 100

/-- The context of the impact-score example in §8 of the spec. -/
def impactExampleCtx : WeatherContext where
  condition := Cond.other
  rawConditionMain := ""
  description := ""
  temp := some (-1)
  feelsLike := none
  windSpeed := some 3
  cloudPct := none
  visibilityM := some 5000
  rainMm1h := some 0
  snowMm1h := some 0

theorem getImpactScore_eq_spec (ctx : WeatherContext) :
    getImpactScore ctx = impactScoreSpec ctx := rfl

/-- C3: getImpactScore coincides with the additive reference model of
§4.5 on every context, and the example context (−1 °C, wind 3 m/s, no
precipitation, visibility 5000 m) scores exactly 20. -/
theorem getImpactScore_additive_model (ctx : WeatherContext) :
    getImpactScore ctx = impactScoreSpec ctx
    ∧ getImpactScore impactExampleCtx = 20 := by
  constructor
  · exact getImpactScore_eq_spec ctx
  · unfold getImpactScore
    norm_num [impactExampleCtx, clamp, clampInt, jsRound]

/-! ## Bounds and monotonicity of the impact score -/

theorem clamp_le_clamp {a b lo hi : ℚ} (h : a ≤ b) :
    clamp a lo hi ≤ clamp b lo hi :=
  max_le_max le_rfl (min_le_min le_rfl h)

theorem clampInt_le_clampInt {a b lo hi : ℤ} (h : a ≤ b) :
    clampInt a lo hi ≤ clampInt b lo hi :=
  max_le_max le_rfl (min_le_min le_rfl h)

theorem rainContribution_mono (ctx : WeatherContext) {r1 r2 : ℚ} (h : r1 ≤ r2) :
    rainContribution { ctx with rainMm1h := some r1 }
      ≤ rainContribution { ctx with rainMm1h := some r2 } := by
  simp only [rainContribution, Option.getD_some]
  by_cases h1 : 0 < r1
  · rw [if_pos h1, if_pos (lt_of_lt_of_le h1 h)]
    exact clamp_le_clamp (by linarith)
  · rw [if_neg h1]
    by_cases h2 : 0 < r2
    · rw [if_pos h2]
      calc (0 : ℚ) ≤ 10 := by norm_num
        _ ≤ clamp (r2 * 12) 10 45 := le_max_left _ _
    · rw [if_neg h2]

theorem jsRound_le_jsRound {a b : ℚ} (h : a ≤ b) : jsRound a ≤ jsRound b :=
  Int.floor_le_floor (by linarith)

theorem impactScoreSpec_rain_mono (ctx : WeatherContext) {r1 r2 : ℚ}
    (h : r1 ≤ r2) :
    impactScoreSpec { ctx with rainMm1h := some r1 }
      ≤ impactScoreSpec { ctx with rainMm1h := some r2 } := by
  unfold impactScoreSpec
  apply clampInt_le_clampInt
  apply jsRound_le_jsRound
  exact add_le_add
    (add_le_add
      (add_le_add
        (add_le_add (add_le_add (rainContribution_mono ctx h) le_rfl) le_rfl)
        le_rfl)
      le_rfl)
    le_rfl

/-- C4: the impact score is always an integer in [0, 100], and it is
monotonically non-decreasing in rainMm1h with all other fields fixed. -/
theorem getImpactScore_bounds_and_rain_monotone (ctx : WeatherContext)
    (r1 r2 : ℚ) (h : r1 ≤ r2) :
    (0 ≤ getImpactScore ctx ∧ getImpactScore ctx ≤ 100)
    ∧ getImpactScore { ctx with rainMm1h := some r1 }
        ≤ getImpactScore { ctx with rainMm1h := some r2 } := by
  refine ⟨?_, ?_⟩
  · rw [getImpactScore_eq_spec]
    unfold impactScoreSpec clampInt
    exact ⟨le_max_left _ _, max_le (by norm_num) (min_le_left _ _)⟩
  · rw [getImpactScore_eq_spec, getImpactScore_eq_spec]
    exact impactScoreSpec_rain_mono ctx h

/-- C4 witness: raising rainMm1h from 0 to 5 mm/h on a fixed context never
lowers the score, and the score of the base context is within bounds. -/
theorem getImpactScore_bounds_and_rain_monotone_witness :
    (0 ≤ getImpactScore (mkCtx Cond.other (some 20) none)
      ∧ getImpactScore (mkCtx Cond.other (some 20) none) ≤ 100)
    ∧ getImpactScore { mkCtx Cond.other (some 20) none with rainMm1h := some 0 }
        ≤ getImpactScore { mkCtx Cond.other (some 20) none with rainMm1h := some 5 } :=
  getImpactScore_bounds_and_rain_monotone (mkCtx Cond.other (some 20) none) 0 5
    (by decide)

/-! ## The hourly forecast window -/

theorem time_getD_eq_get (fx : HourlyFx) {i : ℕ} (h : i < fx.time.length) :
    fx.time.getD i 0 = fx.time.get ⟨i, h⟩ := by
  rw [List.getD_eq_getElem?_getD, List.getElem?_eq_getElem h]
  rfl

/-- The window predicate of the spec model, abbreviated. -/
def inWindow (fx : HourlyFx) (now endOfDay : ℤ) (j : ℕ) : Bool :=
  decide (now ≤ fx.time.getD j 0) && decide (fx.time.getD j 0 ≤ endOfDay)

theorem hourlyItemsFrom_eq_filter (fx : HourlyFx) (now endOfDay : ℤ)
    (hs : List.Sorted (· ≤ ·) fx.time) (i : ℕ) :
    hourlyItemsFrom fx now endOfDay i =
      ((List.range' i (fx.time.length - i)).filter (inWindow fx now endOfDay)).map
        (hourlyEntry fx) := by
  by_cases h : i < fx.time.length
  · have hlen : fx.time.length - i = (fx.time.length - (i + 1)) + 1 := by omega
    have hti : fx.time.getD i 0 = fx.time.get ⟨i, h⟩ := time_getD_eq_get fx h
    rw [hourlyItemsFrom, dif_pos h, hlen, List.range'_succ]
    by_cases h1 : fx.time.get ⟨i, h⟩ < now
    · rw [if_pos h1, List.filter_cons_of_neg]
      · exact hourlyItemsFrom_eq_filter fx now endOfDay hs (i + 1)
      · simp only [inWindow, hti, Bool.and_eq_true, decide_eq_true_eq, not_and]
        omega
    · rw [if_neg h1]
      by_cases h2 : endOfDay < fx.time.get ⟨i, h⟩
      · rw [if_pos h2]
        symm
        rw [List.map_eq_nil_iff, List.filter_eq_nil_iff]
        intro j hj
        have hbound : i ≤ j ∧ j < fx.time.length := by
          rcases List.mem_cons.mp hj with h3 | h3
          · omega
          · rw [List.mem_range'_1] at h3
            omega
        have hjlen : j < fx.time.length := hbound.2
        have hij : fx.time.get ⟨i, h⟩ ≤ fx.time.get ⟨j, hjlen⟩ :=
          hs.rel_get_of_le (by exact Fin.mk_le_mk.mpr hbound.1)
        simp only [inWindow, time_getD_eq_get fx hjlen, Bool.and_eq_true,
          decide_eq_true_eq, not_and]
        omega
      · rw [if_neg h2, List.filter_cons_of_pos, List.map_cons]
        · have hrec := hourlyItemsFrom_eq_filter fx now endOfDay hs (i + 1)
          rw [hrec]
          have hentry : hourlyEntry fx i =
              { time := fx.time.get ⟨i, h⟩
                temp := fx.temperature_2m.get? i
                pop := fx.precipitation_probability.get? i
                wind := fx.wind_speed_10m.get? i
                tag := meteoCodeToTag (fx.weather_code.get? i) } := by
            simp [hourlyEntry, List.getElem?_eq_getElem h]
          rw [hentry]
        · simp only [inWindow, hti, Bool.and_eq_true, decide_eq_true_eq]
          omega
  · rw [hourlyItemsFrom, dif_neg h]
    have hz : fx.time.length - i = 0 := by omega
    simp [hz]
termination_by fx.time.length - i

/-- C7: on a chronologically ordered hourly series, the extracted hourly
window is exactly the entries with timestamp in [now, endOfDay]
inclusive, in original order, annotated from the fixed
weather-code-to-tag table (also restated below for all listed codes). -/
theorem hourlyWindow_filters_day (fx : HourlyFx) (now endOfDay : ℤ)
    (hs : List.Sorted (· ≤ ·) fx.time) :
    hourlyUntilEndOfDay fx now endOfDay = hourlyWindowSpec fx now endOfDay
  ∧ meteoCodeToTag (some 0) = "Klar"
  ∧ (([1, 2, 3] : List ℤ).all fun c => meteoCodeToTag (some c) == "Wolkig") = true
  ∧ (([45, 48] : List ℤ).all fun c => meteoCodeToTag (some c) == "Nebel") = true
  ∧ (([51, 53, 55, 56, 57] : List ℤ).all fun c => meteoCodeToTag (some c) == "Niesel") = true
  ∧ (([61, 63, 65, 66, 67] : List ℤ).all fun c => meteoCodeToTag (some c) == "Regen") = true
  ∧ (([71, 73, 75, 77] : List ℤ).all fun c => meteoCodeToTag (some c) == "Schnee") = true
  ∧ (([80, 81, 82] : List ℤ).all fun c => meteoCodeToTag (some c) == "Schauer") = true
  ∧ (([95, 96, 99] : List ℤ).all fun c => meteoCodeToTag (some c) == "Gewitter") = true
  ∧ meteoCodeToTag (some 4) = "Wechselhaft" ∧ meteoCodeToTag (some 100) = "Wechselhaft" := by
  refine ⟨?_, by decide, by decide, by decide, by decide, by decide, by decide,
    by decide, by decide, by decide, by decide⟩
  have h0 := hourlyItemsFrom_eq_filter fx now endOfDay hs 0
  rw [hourlyUntilEndOfDay, h0, hourlyWindowSpec, List.range_eq_range']
  rfl

/-- A concrete two-day hourly series: 22:00, 23:00 and midnight of the
next day, with matching parallel metric arrays. -/
def sampleFx : HourlyFx where
  time := [22, 23, 24]
  temperature_2m := [10, 9, 8]
  precipitation_probability := [0, 10, 20]
  wind_speed_10m := [5, 6, 7]
  weather_code := [0, 61, 95]

/-- C7 witness: on the concrete sorted series with now = 23 and end of
day 23, the window is the single 23:00 entry, tagged from code 61. -/
theorem hourlyWindow_filters_day_witness :
    hourlyUntilEndOfDay sampleFx 23 23 = hourlyWindowSpec sampleFx 23 23
    ∧ hourlyUntilEndOfDay sampleFx 23 23 =
        [{ time := 23, temp := some 9, pop := some 10, wind := some 6, tag := "Regen" }] :=
  ⟨(hourlyWindow_filters_day sampleFx 23 23 (by decide)).1,
   by simp [hourlyUntilEndOfDay, hourlyItemsFrom, sampleFx, meteoCodeToTag]⟩

end WeatherWise
